import Mathlib

/-!
Verification of the pipeline graph model of the ETL Pipeline Builder
frontend: the connection compatibility matrix, the save/load
serialization codec, and the workspace/selection store operations.

Shallow embedding conventions: JavaScript objects become structures,
absent fields become `Option`, JS string-keyed `Map`/object literals
become association lists in insertion order, and the opaque `params`
and `parameters_schema` blobs become string key/value lists (the codec
never inspects them).
-/

/-- A canvas position. Embeds the JS object with fields x and y. -/
structure Position where
  x : Int
  y : Int
deriving DecidableEq, Repr

/-- Opaque parameter blob: string key/value pairs. The store and the
codec move it around wholesale and never inspect it. -/
abbrev Params := List (String × String)

/-- A catalog entry, as served by the backend and stored in
`masterPlugins`: name, type string, and an opaque parameter schema. -/
structure PluginDescriptor where
  name : String
  type : String
  parameters_schema : List (String × String)
deriving DecidableEq, Repr

/-- The `data` payload of a canvas node: `label`, `pluginInfo`,
`params` as built in `onDrop` and `loadPipeline`. -/
structure NodeData where
  label : String
  pluginInfo : PluginDescriptor
  params : Params
deriving DecidableEq, Repr

/-- A canvas node. `position` is optional because a node rehydrated
from a persisted DTO that carries neither a top-level position nor a
`_ui.position` ends up with an undefined position. -/
structure Node where
  id : String
  position : Option Position
  data : NodeData
deriving DecidableEq, Repr

/-- A canvas edge. `id` is optional: edges created by `addEdge` carry
a generated id, edges rehydrated from a file carry none. -/
structure Edge where
  id : Option String
  source : String
  target : String
deriving DecidableEq, Repr

/-- A connection proposal as handed to `isValidConnection`. -/
structure Connection where
  source : String
  target : String
deriving DecidableEq, Repr

/-- One pipeline of the multi-pipeline store. `name` and `schedule`
are optional since a loaded DTO may omit them. -/
structure Pipeline where
  id : String
  name : Option String
  schedule : Option String
  nodes : List Node
  edges : List Edge
deriving DecidableEq, Repr

/-- The multi-pipeline store state: `masterPlugins`, `pipelines` (a JS
object, embedded as an association list in insertion order),
`activePipelineId`, `selectedNodeId`. -/
structure Workspace where
  masterPlugins : List PluginDescriptor
  pipelines : List (String × Pipeline)
  activePipelineId : Option String
  selectedNodeId : Option String
deriving DecidableEq, Repr

/-- The legacy single-pipeline store state (useFlowStore.js): `nodes`,
`edges`, `selectedNodeId`. -/
structure FlowState where
  nodes : List Node
  edges : List Edge
  selectedNodeId : Option String
deriving DecidableEq, Repr

/-- A node of the persisted-file DTO: `id`, `plugin` (the plugin
name), `params`, an optional top-level `position`, and the optional
`_ui.position` written by the save path (`ui` here stands for the
nested `_ui.position` value, which `loadPipeline` reads via
`node._ui?.position`). -/
structure DTONode where
  id : String
  plugin : String
  params : Params
  position : Option Position
  ui : Option Position
deriving DecidableEq, Repr

/-- An edge of the persisted-file DTO. -/
structure DTOEdge where
  source_node_id : String
  target_node_id : String
  target_input_name : String
deriving DecidableEq, Repr

/-- The persisted-file DTO. `id` is optional: files written by
`handleSavePipeline` never contain one, but `loadPipeline` accepts any
parsed JSON object, so an `id` key may be present. -/
structure PersistedDTO where
  id : Option String
  name : Option String
  schedule : Option String
  nodes : List DTONode
  edges : List DTOEdge
deriving DecidableEq, Repr

/-- The `connectionRules` table of FlowCanvas: for a known source
type, the list of admissible target types; for any other string, the
lookup is undefined (`none`). -/
def connectionRules (sourceType : String) : Option (List String) :=
  if sourceType = "extractor" then
    some ["cleanser", "transformer", "validator", "loader"]
  else if sourceType = "cleanser" then
    some ["cleanser", "transformer", "validator", "loader"]
  else if sourceType = "transformer" then
    some ["transformer", "validator", "loader"]
  else if sourceType = "validator" then
    some ["validator", "loader"]
  else if sourceType = "loader" then
    some []
  else
    none

/-- The type-level test of `isValidConnection`:
`connectionRules[sourceType] && connectionRules[sourceType].includes(targetType)`.
An undefined row is falsy, so it yields `false`. -/
def rulesAllow (sourceType targetType : String) : Bool :=
  match connectionRules sourceType with
  | some allowed => allowed.contains targetType
  | none => false

/-- `isValidConnection` of FlowCanvas: resolve both endpoints in the
active pipeline's node list; if either is missing return false, else
consult `connectionRules` on the endpoint plugin types. -/
def isValidConnection (nodes : List Node) (c : Connection) : Bool :=
  match nodes.find? (fun n => n.id == c.source),
        nodes.find? (fun n => n.id == c.target) with
  | some sourceNode, some targetNode =>
      rulesAllow sourceNode.data.pluginInfo.type targetNode.data.pluginInfo.type
  | _, _ => false

/-- The five plugin types of the specification's compatibility table. -/
inductive PType where
  | extractor
  | cleanser
  | transformer
  | validator
  | loader
deriving DecidableEq, Repr

/-- Render a spec-level plugin type as the code's type string. -/
def PType.asString : PType → String
  | .extractor => "extractor"
  | .cleanser => "cleanser"
  | .transformer => "transformer"
  | .validator => "validator"
  | .loader => "loader"

/-- Spec-side definition, following the words of the compatibility
table: extractor and cleanser may feed cleanser, transformer,
validator, loader; transformer may feed transformer, validator,
loader; validator may feed validator, loader; loader feeds nothing;
nothing feeds extractor. Written independently of `connectionRules`
for comparison. -/
def specMatrix : PType → PType → Bool
  | .extractor, .cleanser => true
  | .extractor, .transformer => true
  | .extractor, .validator => true
  | .extractor, .loader => true
  | .cleanser, .cleanser => true
  | .cleanser, .transformer => true
  | .cleanser, .validator => true
  | .cleanser, .loader => true
  | .transformer, .transformer => true
  | .transformer, .validator => true
  | .transformer, .loader => true
  | .validator, .validator => true
  | .validator, .loader => true
  | _, _ => false

/-- The plugin map of `loadPipeline`:
`new Map(masterPlugins.map(p => [p.name, p])).get(name)`. A JS `Map`
built by successive insertion keeps the LAST descriptor inserted under
each name, hence the lookup searches the reversed list. -/
def pluginMapGet (masterPlugins : List PluginDescriptor) (pluginName : String) :
    Option PluginDescriptor :=
  masterPlugins.reverse.find? (fun p => p.name == pluginName)

/-- The degraded descriptor substituted by `loadPipeline` when
`pluginMap.get(node.plugin)` is undefined. -/
def unknownStub (pluginName : String) : PluginDescriptor :=
  { name := pluginName, type := "unknown", parameters_schema := [] }

/-- Rehydration of one persisted node, as performed inside
`loadPipeline`: position is overwritten from `_ui.position` when that
is present, `data` is rebuilt with the catalog descriptor or the
unknown stub, and `params` is carried over verbatim. -/
def rehydrateNode (masterPlugins : List PluginDescriptor) (n : DTONode) : Node :=
  { id := n.id
    position := match n.ui with
      | some p => some p
      | none => n.position
    data :=
      { label := n.plugin
        pluginInfo := (pluginMapGet masterPlugins n.plugin).getD (unknownStub n.plugin)
        params := n.params } }

/-- Rehydration of one persisted edge, as performed inside
`loadPipeline`: `edge.source = edge.source_node_id;
edge.target = edge.target_node_id`. No id is assigned and no edge is
filtered out. -/
def rehydrateEdge (e : DTOEdge) : Edge :=
  { id := none, source := e.source_node_id, target := e.target_node_id }

/-- Node list rehydration: `loadPipeline` maps over `dto.nodes`. -/
def rehydrateNodes (masterPlugins : List PluginDescriptor)
    (nodes : List DTONode) : List Node :=
  nodes.map (rehydrateNode masterPlugins)

/-- Edge list rehydration: `loadPipeline` maps over `dto.edges`. -/
def rehydrateEdges (edges : List DTOEdge) : List Edge :=
  edges.map rehydrateEdge

/-- One node of the save path of `handleSavePipeline`:
id, plugin name, params, and the position tucked under `_ui`. The
top-level `position` key is not written. -/
def saveNode (n : Node) : DTONode :=
  { id := n.id
    plugin := n.data.pluginInfo.name
    params := n.data.params
    position := none
    ui := n.position }

/-- One edge of the save path of `handleSavePipeline`. -/
def saveEdge (e : Edge) : DTOEdge :=
  { source_node_id := e.source
    target_node_id := e.target
    target_input_name := "input_data" }

/-- The persisted-file DTO built by `handleSavePipeline` from the
active pipeline; it carries no `id` key. -/
def toPersistedDTO (p : Pipeline) : PersistedDTO :=
  { id := none
    name := p.name
    schedule := p.schedule
    nodes := p.nodes.map saveNode
    edges := p.edges.map saveEdge }

/-- JS object update `... state.pipelines, [key]: value`: replace in
place when the key exists, append otherwise. -/
def upsert (key : String) (value : Pipeline) :
    List (String × Pipeline) → List (String × Pipeline)
  | [] => [(key, value)]
  | kv :: rest =>
      if kv.1 == key then (key, value) :: rest
      else kv :: upsert key value rest

/-- JS object read `state.pipelines[key]`. -/
def lookupPipeline (pipelines : List (String × Pipeline)) (key : String) :
    Option Pipeline :=
  (pipelines.find? (fun kv => kv.1 == key)).map Prod.snd

/-- `createNewPipeline` of the multi-pipeline store; the nanoid call
is injected as `freshId`. -/
def createNewPipeline (freshId : String) (name : String := "Untitled Pipeline") :
    Pipeline :=
  { id := "pipeline-" ++ freshId
    name := some name
    schedule := none
    nodes := []
    edges := [] }

/-- `addNewPipeline` of the multi-pipeline store. -/
def addNewPipeline (freshId : String) (ws : Workspace) : Workspace :=
  let newPipeline := createNewPipeline freshId
  { ws with
    pipelines := upsert newPipeline.id newPipeline ws.pipelines
    activePipelineId := some newPipeline.id
    selectedNodeId := none }

/-- `loadPipeline` of the multi-pipeline store. The spread
`id: pipeline-nanoid(), ...pipelineDataFromFile` lets a later `id`
key of the DTO override the freshly generated one, so the stored id
is the DTO's own id when the file carries one. -/
def loadPipeline (freshId : String) (dto : PersistedDTO) (ws : Workspace) :
    Workspace :=
  let nodes := rehydrateNodes ws.masterPlugins dto.nodes
  let edges := rehydrateEdges dto.edges
  let pipelineId := match dto.id with
    | some embedded => embedded
    | none => "pipeline-" ++ freshId
  let newPipeline : Pipeline :=
    { id := pipelineId
      name := dto.name
      schedule := dto.schedule
      nodes := nodes
      edges := edges }
  { ws with
    pipelines := upsert pipelineId newPipeline ws.pipelines
    activePipelineId := some pipelineId
    selectedNodeId := none }

/-- `setActivePipelineId` of the multi-pipeline store. -/
def setActivePipelineId (pipelineId : String) (ws : Workspace) : Workspace :=
  { ws with activePipelineId := some pipelineId, selectedNodeId := none }

/-- A change consumed by the reactflow `applyEdgeChanges` helper, as
the store receives it: an add carrying the new edge, or a removal by
edge id. -/
inductive EdgeChange where
  | add (item : Edge)
  | remove (id : String)
deriving DecidableEq, Repr

/-- Modelled from the reactflow library helper `applyEdgeChanges`
imported by the store: an add change appends its item, a remove
change deletes the edges with the given id. The helper performs no
type validation of any kind. -/
def applyEdgeChanges (changes : List EdgeChange) (edges : List Edge) :
    List Edge :=
  changes.foldl
    (fun acc c =>
      match c with
      | .add item => acc ++ [item]
      | .remove rid => acc.filter (fun e => !(e.id == some rid)))
    edges

/-- `onEdgesChange` of the multi-pipeline store: no-op without an
active pipeline, otherwise replace the active pipeline's edges with
`applyEdgeChanges changes edges`. -/
def onEdgesChange (changes : List EdgeChange) (ws : Workspace) : Workspace :=
  match ws.activePipelineId with
  | none => ws
  | some activeId =>
    match lookupPipeline ws.pipelines activeId with
    | none => ws
    | some p =>
        { ws with
          pipelines :=
            upsert activeId
              { p with edges := applyEdgeChanges changes p.edges }
              ws.pipelines }

/-- `removeNode` of the legacy single-pipeline store: drop the node,
drop every edge whose source or target is the node, clear the
selection when it pointed at the node. -/
def removeNode (nodeIdToRemove : String) (s : FlowState) : FlowState :=
  { nodes := s.nodes.filter (fun n => !(n.id == nodeIdToRemove))
    edges := s.edges.filter
      (fun e => !(e.source == nodeIdToRemove) && !(e.target == nodeIdToRemove))
    selectedNodeId :=
      if s.selectedNodeId == some nodeIdToRemove then none
      else s.selectedNodeId }

/-- A drop event on the canvas, as consumed by `onDrop` of FlowCanvas:
the dragged plugin descriptor, the client coordinates, the wrapper's
bounding-rectangle offset, and the value of `+new Date()` at the time
of the drop, in milliseconds. -/
structure DropEvent where
  plugin : PluginDescriptor
  clientX : Int
  clientY : Int
  rectLeft : Int
  rectTop : Int
  timestampMs : Nat
deriving DecidableEq, Repr

/-- The node id generated by `onDrop`:
`node-` plugin name `-` timestamp. -/
def newNodeId (pluginName : String) (timestampMs : Nat) : String :=
  "node-" ++ pluginName ++ "-" ++ toString timestampMs

/-- The node built by `onDrop` of FlowCanvas. -/
def nodeOfDrop (e : DropEvent) : Node :=
  { id := newNodeId e.plugin.name e.timestampMs
    position := some { x := e.clientX - e.rectLeft, y := e.clientY - e.rectTop }
    data := { label := e.plugin.name, pluginInfo := e.plugin, params := [] } }

/-- Reading back the key just written by `upsert` yields the new
pipeline, matching the JS object update semantics. -/
theorem lookupPipeline_upsert (key : String) (value : Pipeline)
    (m : List (String × Pipeline)) :
    lookupPipeline (upsert key value m) key = some value := by
  induction m with
  | nil => simp [upsert, lookupPipeline]
  | cons kv rest ih =>
    by_cases hk : kv.1 == key
    · simp [upsert, hk, lookupPipeline]
    · simpa [upsert, hk, lookupPipeline] using ih

/-- A successful catalog-map lookup returns a descriptor registered
under the looked-up name. -/
theorem pluginMapGet_name (mp : List PluginDescriptor) (pluginName : String)
    (d : PluginDescriptor) (h : pluginMapGet mp pluginName = some d) :
    d.name = pluginName := by
  unfold pluginMapGet at h
  have := List.find?_some h
  simpa using this

/-- C1: for every pair (s,t) of plugin types in the set containing
extractor, cleanser, transformer, validator and loader, the connection
validator accepts (s,t) if and only if the spec's compatibility table
marks it allowed: extractor and cleanser may feed cleanser,
transformer, validator, loader; transformer may feed transformer,
validator, loader; validator may feed validator, loader; loader has no
outgoing edges and extractor has no incoming edges. -/
theorem connection_matrix_matches_spec :
    ∀ s t : PType, rulesAllow s.asString t.asString = specMatrix s t := by
  intro s t
  cases s <;> cases t <;> decide

/-- C6: for every workspace state and every pipeline id, setting the
active pipeline to that id sets `selectedNodeId` to null, so no node
selection survives the switch. -/
theorem switch_active_clears_selection (ws : Workspace) (pipelineId : String) :
    (setActivePipelineId pipelineId ws).selectedNodeId = none ∧
    (setActivePipelineId pipelineId ws).activePipelineId = some pipelineId :=
  ⟨rfl, rfl⟩

/-- C10: `removeNode` sets `selectedNodeId` to null exactly when the
removed node was the currently selected one, and leaves the selection
unchanged otherwise, so a selection never dangles on a deleted node. -/
theorem remove_node_selection (s : FlowState) (nodeId : String) :
    (s.selectedNodeId = some nodeId →
      (removeNode nodeId s).selectedNodeId = none) ∧
    (s.selectedNodeId ≠ some nodeId →
      (removeNode nodeId s).selectedNodeId = s.selectedNodeId) := by
  constructor
  · intro h
    simp [removeNode, h]
  · intro h
    simp [removeNode, h]

/-- Witness for C10 on a concrete store state. -/
theorem remove_node_selection_witness :
    (removeNode "n1"
        { nodes := [], edges := [], selectedNodeId := some "n1" }).selectedNodeId
      = none :=
  (remove_node_selection
      { nodes := [], edges := [], selectedNodeId := some "n1" } "n1").1 rfl

/-- C5: for every (legacy) store state and every node id present in
it, `removeNode` removes that node, removes every edge whose source or
target is that node, and removes no other node and no other edge:
membership after removal is characterised exactly. -/
theorem remove_node_cascades (s : FlowState) (nodeId : String)
    (hpresent : ∃ n ∈ s.nodes, n.id = nodeId) :
    (∀ m : Node, m ∈ (removeNode nodeId s).nodes ↔
        m ∈ s.nodes ∧ m.id ≠ nodeId) ∧
    (∀ e : Edge, e ∈ (removeNode nodeId s).edges ↔
        e ∈ s.edges ∧ e.source ≠ nodeId ∧ e.target ≠ nodeId) := by
  constructor
  · intro m
    simp [removeNode, List.mem_filter]
  · intro e
    simp [removeNode, List.mem_filter, and_assoc]

/-- Concrete node fixture: an extractor node. -/
def nodeA : Node :=
  { id := "a"
    position := some { x := 0, y := 0 }
    data :=
      { label := "csv"
        pluginInfo := { name := "csv", type := "extractor", parameters_schema := [] }
        params := [] } }

/-- Concrete node fixture: a loader node. -/
def nodeB : Node :=
  { id := "b"
    position := some { x := 10, y := 5 }
    data :=
      { label := "sink"
        pluginInfo := { name := "sink", type := "loader", parameters_schema := [] }
        params := [("path", "out.csv")] } }

/-- Concrete edge fixture from nodeA to nodeB. -/
def edgeAB : Edge := { id := some "e1", source := "a", target := "b" }

/-- Concrete legacy store state with two nodes and one edge. -/
def flowAB : FlowState :=
  { nodes := [nodeA, nodeB], edges := [edgeAB], selectedNodeId := none }

/-- Witness for C5: deleting node a from the concrete state keeps
node b and drops the incident edge. -/
theorem remove_node_cascades_witness :
    nodeB ∈ (removeNode "a" flowAB).nodes ∧
    edgeAB ∉ (removeNode "a" flowAB).edges :=
  have h := remove_node_cascades flowAB "a" ⟨nodeA, by decide, by decide⟩
  ⟨(h.1 nodeB).mpr (by decide),
   fun hm => ((h.2 edgeAB).mp hm).2.1 (by decide)⟩

/-- C3: rehydrating a persisted node whose plugin name is absent from
the catalog yields, inside the rehydrated node list, a node carrying
the degraded stub descriptor (type unknown, empty schema) and the
DTO's params verbatim. -/
theorem unknown_plugin_rehydrates_to_stub (mp : List PluginDescriptor)
    (dto : PersistedDTO) (n : DTONode)
    (hmem : n ∈ dto.nodes)
    (habsent : pluginMapGet mp n.plugin = none) :
    rehydrateNode mp n ∈ rehydrateNodes mp dto.nodes ∧
    (rehydrateNode mp n).data.pluginInfo = unknownStub n.plugin ∧
    (rehydrateNode mp n).data.pluginInfo.type = "unknown" ∧
    (rehydrateNode mp n).data.pluginInfo.parameters_schema = [] ∧
    (rehydrateNode mp n).data.params = n.params := by
  refine ⟨List.mem_map_of_mem _ hmem, ?_, ?_, ?_, rfl⟩
  · simp [rehydrateNode, habsent]
  · simp [rehydrateNode, habsent, unknownStub]
  · simp [rehydrateNode, habsent, unknownStub]

/-- Concrete persisted node fixture referencing a plugin called
ghostPlugin. -/
def ghostDTONode : DTONode :=
  { id := "n1"
    plugin := "ghostPlugin"
    params := [("k", "v")]
    position := none
    ui := some { x := 1, y := 2 } }

/-- Concrete persisted DTO fixture whose single node is
`ghostDTONode`. -/
def dtoGhostNode : PersistedDTO :=
  { id := none
    name := some "Loaded"
    schedule := none
    nodes := [ghostDTONode]
    edges := [] }

/-- Witness for C3 against an empty catalog. -/
theorem unknown_plugin_rehydrates_to_stub_witness :
    rehydrateNode [] ghostDTONode ∈ rehydrateNodes [] dtoGhostNode.nodes ∧
    (rehydrateNode [] ghostDTONode).data.pluginInfo =
        unknownStub ghostDTONode.plugin ∧
    (rehydrateNode [] ghostDTONode).data.pluginInfo.type = "unknown" ∧
    (rehydrateNode [] ghostDTONode).data.pluginInfo.parameters_schema = [] ∧
    (rehydrateNode [] ghostDTONode).data.params = ghostDTONode.params :=
  unknown_plugin_rehydrates_to_stub [] dtoGhostNode ghostDTONode
    (by decide) (by decide)

/-- Saving one node and rehydrating it against a catalog that knows
its plugin restores params, position and plugin name. -/
theorem rehydrate_saveNode (mp : List PluginDescriptor) (n : Node)
    (h : (pluginMapGet mp n.data.pluginInfo.name).isSome) :
    (rehydrateNode mp (saveNode n)).data.params = n.data.params ∧
    (rehydrateNode mp (saveNode n)).position = n.position ∧
    (rehydrateNode mp (saveNode n)).data.pluginInfo.name =
      n.data.pluginInfo.name := by
  obtain ⟨d, hd⟩ := Option.isSome_iff_exists.mp h
  refine ⟨rfl, ?_, ?_⟩
  · cases hp : n.position <;> simp [rehydrateNode, saveNode, hp]
  · simp [rehydrateNode, saveNode, hd, pluginMapGet_name mp _ d hd]

/-- Node-list round trip: saving then rehydrating a node list whose
plugins are all known restores each node's params, position and
plugin name, in order. -/
theorem roundtrip_nodes (mp : List PluginDescriptor) (ns : List Node)
    (h : ∀ n ∈ ns, (pluginMapGet mp n.data.pluginInfo.name).isSome) :
    (rehydrateNodes mp (ns.map saveNode)).map
        (fun rn => (rn.data.params, rn.position, rn.data.pluginInfo.name)) =
      ns.map (fun n => (n.data.params, n.position, n.data.pluginInfo.name)) := by
  unfold rehydrateNodes
  rw [List.map_map, List.map_map]
  apply List.map_congr_left
  intro n hn
  obtain ⟨h1, h2, h3⟩ := rehydrate_saveNode mp n (h n hn)
  simp [Function.comp, h1, h2, h3]

/-- Edge-list round trip: saving then rehydrating restores every
edge's endpoints, in order. -/
theorem roundtrip_edges (es : List Edge) :
    (rehydrateEdges (es.map saveEdge)).map (fun e => (e.source, e.target)) =
      es.map (fun e => (e.source, e.target)) := by
  unfold rehydrateEdges
  rw [List.map_map, List.map_map]
  rfl

/-- C2: for every pipeline whose every node references a plugin
present in the catalog, rehydrating the persisted DTO produced from
it (save followed by load) yields nodes with exactly the same params,
position and plugin name, and edges with the same source/target
endpoints. -/
theorem save_load_roundtrip (mp : List PluginDescriptor) (p : Pipeline)
    (h : ∀ n ∈ p.nodes, (pluginMapGet mp n.data.pluginInfo.name).isSome) :
    (rehydrateNodes mp (toPersistedDTO p).nodes).map
        (fun rn => (rn.data.params, rn.position, rn.data.pluginInfo.name)) =
      p.nodes.map (fun n => (n.data.params, n.position, n.data.pluginInfo.name)) ∧
    (rehydrateEdges (toPersistedDTO p).edges).map (fun e => (e.source, e.target)) =
      p.edges.map (fun e => (e.source, e.target)) :=
  ⟨roundtrip_nodes mp p.nodes h, roundtrip_edges p.edges⟩

/-- Concrete catalog fixture holding the two plugins of the concrete
pipeline fixture. -/
def catalogCsvSink : List PluginDescriptor :=
  [{ name := "csv", type := "extractor", parameters_schema := [("sep", "string")] },
   { name := "sink", type := "loader", parameters_schema := [] }]

/-- Concrete pipeline fixture with two nodes and one edge, every
plugin present in `catalogCsvSink`. -/
def pipelineAB : Pipeline :=
  { id := "pipeline-x1"
    name := some "Demo"
    schedule := none
    nodes := [nodeA, nodeB]
    edges := [edgeAB] }

/-- Witness for C2 on the concrete pipeline and catalog. -/
theorem save_load_roundtrip_witness :
    (rehydrateNodes catalogCsvSink (toPersistedDTO pipelineAB).nodes).map
        (fun rn => (rn.data.params, rn.position, rn.data.pluginInfo.name)) =
      pipelineAB.nodes.map
        (fun n => (n.data.params, n.position, n.data.pluginInfo.name)) ∧
    (rehydrateEdges (toPersistedDTO pipelineAB).edges).map
        (fun e => (e.source, e.target)) =
      pipelineAB.edges.map (fun e => (e.source, e.target)) :=
  save_load_roundtrip catalogCsvSink pipelineAB (by decide)

/-- Concrete persisted DTO fixture with one node and one edge whose
target names a node id absent from the node set. -/
def dtoDanglingEdge : PersistedDTO :=
  { id := none
    name := some "Broken"
    schedule := none
    nodes :=
      [{ id := "n1"
         plugin := "csv"
         params := []
         position := none
         ui := none }]
    edges :=
      [{ source_node_id := "n1"
         target_node_id := "ghost"
         target_input_name := "input_data" }] }

/-- Counterexample to C4: rehydrating `dtoDanglingEdge` keeps the
edge aimed at the nonexistent node ghost, so the resulting pipeline
does NOT contain only edges whose endpoints exist among its nodes. -/
theorem dangling_edge_not_dropped :
    (rehydrateNodes [] dtoDanglingEdge.nodes).map Node.id = ["n1"] ∧
    (rehydrateEdges dtoDanglingEdge.edges).map Edge.target = ["ghost"] ∧
    "ghost" ∉ (rehydrateNodes [] dtoDanglingEdge.nodes).map Node.id := by
  refine ⟨rfl, rfl, ?_⟩
  decide

/-- C4 amended: rehydration keeps every persisted edge, merely
remapping the endpoint field names; edges referencing missing node
ids survive, with no diagnostic and no filtering. -/
theorem rehydration_keeps_all_edges (dto : PersistedDTO) :
    (rehydrateEdges dto.edges).map (fun e => (e.source, e.target)) =
      dto.edges.map (fun e => (e.source_node_id, e.target_node_id)) := by
  unfold rehydrateEdges
  rw [List.map_map]
  rfl

/-- An empty workspace fixture. -/
def emptyWorkspace : Workspace :=
  { masterPlugins := []
    pipelines := []
    activePipelineId := none
    selectedNodeId := none }

/-- Concrete persisted DTO fixture that carries its own id key. -/
def dtoWithEmbeddedId : PersistedDTO :=
  { id := some "pipeline-stale"
    name := some "Loaded"
    schedule := none
    nodes := []
    edges := [] }

/-- Counterexample to C7: loading a DTO that carries an id key
inserts the pipeline under that embedded id, not under the freshly
generated one — the object spread in `loadPipeline` lets the DTO's
id key override the fresh id written before it. -/
theorem load_keeps_embedded_id :
    (loadPipeline "fresh1" dtoWithEmbeddedId emptyWorkspace).activePipelineId =
        some "pipeline-stale" ∧
    (loadPipeline "fresh1" dtoWithEmbeddedId emptyWorkspace).pipelines.map
        Prod.fst = ["pipeline-stale"] ∧
    lookupPipeline
        (loadPipeline "fresh1" dtoWithEmbeddedId emptyWorkspace).pipelines
        "pipeline-fresh1" = none := by
  refine ⟨rfl, rfl, ?_⟩
  decide

/-- C7 amended: when the DTO carries no id key — which holds for
every file the save path writes — `loadPipeline` inserts the
rehydrated pipeline under the freshly generated id, makes it active,
and clears selection. -/
theorem load_fresh_id_without_embedded (freshId : String) (dto : PersistedDTO)
    (ws : Workspace) (h : dto.id = none) :
    (loadPipeline freshId dto ws).activePipelineId =
        some ("pipeline-" ++ freshId) ∧
    (loadPipeline freshId dto ws).selectedNodeId = none ∧
    ∃ p : Pipeline,
      lookupPipeline (loadPipeline freshId dto ws).pipelines
          ("pipeline-" ++ freshId) = some p ∧
      p.nodes = rehydrateNodes ws.masterPlugins dto.nodes ∧
      p.edges = rehydrateEdges dto.edges := by
  refine ⟨by simp [loadPipeline, h], by simp [loadPipeline, h], ?_⟩
  refine ⟨{ id := "pipeline-" ++ freshId
            name := dto.name
            schedule := dto.schedule
            nodes := rehydrateNodes ws.masterPlugins dto.nodes
            edges := rehydrateEdges dto.edges }, ?_, rfl, rfl⟩
  simp only [loadPipeline, h]
  exact lookupPipeline_upsert _ _ _

/-- Witness for the amended C7 on a concrete id-less DTO. -/
theorem load_fresh_id_without_embedded_witness :
    (loadPipeline "f1" dtoGhostNode emptyWorkspace).activePipelineId =
        some ("pipeline-" ++ "f1") ∧
    (loadPipeline "f1" dtoGhostNode emptyWorkspace).selectedNodeId = none ∧
    ∃ p : Pipeline,
      lookupPipeline (loadPipeline "f1" dtoGhostNode emptyWorkspace).pipelines
          ("pipeline-" ++ "f1") = some p ∧
      p.nodes = rehydrateNodes emptyWorkspace.masterPlugins dtoGhostNode.nodes ∧
      p.edges = rehydrateEdges dtoGhostNode.edges :=
  load_fresh_id_without_embedded "f1" dtoGhostNode emptyWorkspace rfl

/-- The edge proposed from nodeA to nodeB (extractor to loader). -/
def edgeAddAB : Edge := { id := some "xy1", source := "a", target := "b" }

/-- The edge proposed from nodeB to nodeA (loader to extractor),
which the compatibility matrix forbids. -/
def edgeAddBA : Edge := { id := some "xy2", source := "b", target := "a" }

/-- Concrete workspace fixture whose active pipeline p1 holds the
extractor node a and the loader node b, with no edges. -/
def workspaceAB : Workspace :=
  { masterPlugins := catalogCsvSink
    pipelines :=
      [("p1",
        { id := "p1"
          name := some "Demo"
          schedule := none
          nodes := [nodeA, nodeB]
          edges := [] })]
    activePipelineId := some "p1"
    selectedNodeId := none }

/-- Counterexample to C8: a batch containing one valid add (a to b)
and one invalid add (b to a, loader to extractor) commits BOTH edges:
`onEdgesChange` never consults the connection validator, which indeed
rejects the loader-to-extractor proposal. -/
theorem batch_commits_invalid_add :
    (lookupPipeline
        (onEdgesChange [.add edgeAddAB, .add edgeAddBA] workspaceAB).pipelines
        "p1").map Pipeline.edges = some [edgeAddAB, edgeAddBA] ∧
    isValidConnection [nodeA, nodeB] { source := "b", target := "a" } = false ∧
    isValidConnection [nodeA, nodeB] { source := "a", target := "b" } = true := by
  refine ⟨?_, ?_, ?_⟩ <;> decide

/-- C8 amended: `onEdgesChange` forwards the entire batch to the
reactflow `applyEdgeChanges` helper without consulting the connection
validator, so every add change in the batch — valid or not — is
committed; type validation happens only at connect time via
`isValidConnection`. -/
theorem on_edges_change_applies_whole_batch (changes : List EdgeChange)
    (ws : Workspace) (activeId : String) (p : Pipeline)
    (h1 : ws.activePipelineId = some activeId)
    (h2 : lookupPipeline ws.pipelines activeId = some p) :
    lookupPipeline (onEdgesChange changes ws).pipelines activeId =
      some { p with edges := applyEdgeChanges changes p.edges } := by
  simp only [onEdgesChange, h1, h2]
  exact lookupPipeline_upsert _ _ _

/-- Witness for the amended C8 on the concrete workspace. -/
theorem on_edges_change_applies_whole_batch_witness :
    lookupPipeline
        (onEdgesChange [.add edgeAddBA] workspaceAB).pipelines "p1" =
      some { id := "p1"
             name := some "Demo"
             schedule := none
             nodes := [nodeA, nodeB]
             edges :=
               applyEdgeChanges [.add edgeAddBA] [] } :=
  on_edges_change_applies_whole_batch [.add edgeAddBA] workspaceAB "p1"
    { id := "p1"
      name := some "Demo"
      schedule := none
      nodes := [nodeA, nodeB]
      edges := [] } rfl (by decide)

/-- The csv extractor descriptor used in drop-event fixtures. -/
def csvPlugin : PluginDescriptor :=
  { name := "csv", type := "extractor", parameters_schema := [] }

/-- A drop of the csv plugin at the origin at millisecond 1000. -/
def dropAt0 : DropEvent :=
  { plugin := csvPlugin
    clientX := 0
    clientY := 0
    rectLeft := 0
    rectTop := 0
    timestampMs := 1000 }

/-- A distinct drop of the csv plugin elsewhere on the canvas, in the
same millisecond. -/
def dropAt120 : DropEvent :=
  { plugin := csvPlugin
    clientX := 120
    clientY := 40
    rectLeft := 0
    rectTop := 0
    timestampMs := 1000 }

/-- Counterexample to C9: two distinct node-creation events — same
plugin, same millisecond, different drop positions — generate the
SAME node id, because `onDrop` derives the id from the plugin name
and the millisecond timestamp alone. -/
theorem node_id_collision :
    dropAt0 ≠ dropAt120 ∧
    nodeOfDrop dropAt0 ≠ nodeOfDrop dropAt120 ∧
    (nodeOfDrop dropAt0).id = (nodeOfDrop dropAt120).id := by
  refine ⟨by decide, by decide, ?_⟩
  decide

/-- C9 amended: the node id generated by `onDrop` depends only on the
dropped plugin's name and the drop timestamp in milliseconds, so node
ids are not drawn from a collision-resistant source — any two
creation events agreeing on name and millisecond collide. (Pipeline
ids, by contrast, are generated from nanoid.) -/
theorem node_id_only_name_and_time (e1 e2 : DropEvent)
    (hname : e1.plugin.name = e2.plugin.name)
    (htime : e1.timestampMs = e2.timestampMs) :
    (nodeOfDrop e1).id = (nodeOfDrop e2).id := by
  simp [nodeOfDrop, newNodeId, hname, htime]

/-- Witness for the amended C9 on the two concrete drop events. -/
theorem node_id_only_name_and_time_witness :
    (nodeOfDrop dropAt0).id = (nodeOfDrop dropAt120).id :=
  node_id_only_name_and_time dropAt0 dropAt120 rfl rfl
